/-
Verification of the utf-rnn training program (src/main.rs, src/test.rs).

The program trains a small multi-layer perceptron with the candle tensor
backend.  We shallow-embed the program over exact rationals:

* tensors of f32 become lists of `ℚ`; the integer data of the program
  (vote features, labels, correct-prediction counts) is exactly
  representable in f32, so the embedding is exact for it;
* the one place where genuine f32 rounding matters to control flow is the
  accuracy computation `100. * (sum_ok / n)`; we model it with `round32`,
  an explicit round-to-nearest-even binary32 rounding on `ℚ`
  (normal range only — all values reached here are normal);
* the gradient produced by the backend's autodiff
  (`candle_nn::SGD::backward_step` on the nll/log-softmax loss) is an
  external collaborator; we model the optimizer step abstractly as a
  fallible function on the parameters, and separately as
  `sgdStep grad = fun p => p - LEARNING_RATE * grad p`, which is the
  documented SGD update rule, with the gradient `grad` left abstract.

Core `Rat` arithmetic is marked `@[irreducible]`; we restore
semireducibility so that concrete runs of the embedding evaluate during
elaboration.  This has no effect on what the kernel accepts.
-/
import Mathlib

set_option allowUnsafeReducibility true

attribute [semireducible] Rat.mul Rat.add Rat.sub Rat.div Rat.inv

/-! ### Binary32 rounding on exact rationals -/

/-- Powers of two as rationals, for scaling significands. -/
def pow2 : ℤ → ℚ
  | Int.ofNat n => ((2 ^ n : ℕ) : ℚ)
  | Int.negSucc n => 1 / ((2 ^ (n + 1) : ℕ) : ℚ)

/-- Fuel-driven binary logarithm for arguments `1 ≤ a`. -/
def floorLog2Pos : ℕ → ℚ → ℤ
  | 0, _ => 0
  | fuel + 1, a => if a < 2 then 0 else floorLog2Pos fuel (a / 2) + 1

/-- Fuel-driven binary logarithm for arguments `0 < a < 1`. -/
def floorLog2Neg : ℕ → ℚ → ℤ
  | 0, _ => 0
  | fuel + 1, a => if 1 ≤ a then 0 else floorLog2Neg fuel (2 * a) - 1

/-- Floor of the binary logarithm of a positive rational. -/
def floorLog2 (a : ℚ) : ℤ :=
  if 1 ≤ a then floorLog2Pos 3000 a else floorLog2Neg 3000 a

/-- Floor of a rational, computed on the raw numerator and denominator. -/
def ratFloor (q : ℚ) : ℤ := Int.fdiv q.num (q.den : ℤ)

/-- Round a rational to the nearest integer, ties to even. -/
def roundHalfEven (q : ℚ) : ℤ :=
  let f := ratFloor q
  let r := q - (f : ℚ)
  if r < 1 / 2 then f
  else if 1 / 2 < r then f + 1
  else if f % 2 = 0 then f else f + 1

/-- Round-to-nearest-even at binary32 precision (24 significand bits),
for the normal range; this is the rounding every f32 arithmetic result of
the program undergoes. -/
def round32 (q : ℚ) : ℚ :=
  if q = 0 then 0
  else
    let a := if q < 0 then -q else q
    let e : ℤ := floorLog2 a
    let m : ℤ := roundHalfEven (a * pow2 (23 - e))
    (if q < 0 then -1 else 1) * (m : ℚ) * pow2 (e - 23)

/-! ### Constants of src/main.rs -/

def VOTE_DIM : ℕ := 2

def RESULTS : ℕ := 1

def EPOCHS : ℕ := 10

def LAYER1_OUT_SIZE : ℕ := 4

def LAYER2_OUT_SIZE : ℕ := 2

def LEARNING_RATE : ℚ := 5 / 100

/-! ### Data model -/

/-- The `Dataset` struct of src/main.rs: four numeric tensors, embedded as
lists (features are f32 values obtained from small integers, hence exact
rationals; labels are u32 class indices). -/
structure Dataset where
  train_votes : List (List ℚ)
  train_results : List ℕ
  test_votes : List (List ℚ)
  test_results : List ℕ
  deriving DecidableEq

/-- A `candle_nn::Linear` layer: weight matrix (rows = output features)
and bias vector. -/
structure Linear where
  weight : List (List ℚ)
  bias : List ℚ
  deriving DecidableEq

/-- The `MultiLevelPerceptron` struct: three linear layers. -/
structure MultiLevelPerceptron where
  ln1 : Linear
  ln2 : Linear
  ln3 : Linear
  deriving DecidableEq

/-- Dot product of two vectors. -/
def dotQ (w x : List ℚ) : ℚ := (List.zipWith (fun a b => a * b) w x).sum

/-- `Linear::forward` on one input row: `y_j = w_j · x + b_j`. -/
def Linear.forward (self : Linear) (x : List ℚ) : List ℚ :=
  (self.weight.zip self.bias).map (fun wb => dotQ wb.1 x + wb.2)

/-- Elementwise ReLU, `max(x, 0)`. -/
def relu (x : ℚ) : ℚ := if x < 0 then 0 else x

/-- `Tensor::relu` on a whole batch. -/
def reluMat (xs : List (List ℚ)) : List (List ℚ) := xs.map (fun r => r.map relu)

/-- `MultiLevelPerceptron::forward`: ln1, relu, ln2, relu, ln3, applied to
a batch of input rows (src/main.rs lines 36-42). -/
def MultiLevelPerceptron.forward (self : MultiLevelPerceptron) (xs : List (List ℚ)) :
    List (List ℚ) :=
  let xs1 := xs.map self.ln1.forward
  let xs2 := reluMat xs1
  let xs3 := xs2.map self.ln2.forward
  let xs4 := reluMat xs3
  xs4.map self.ln3.forward

/-- The tensor shapes `MultiLevelPerceptron::new` constructs:
`linear(VOTE_DIM, LAYER1_OUT_SIZE)`, `linear(LAYER1_OUT_SIZE,
LAYER2_OUT_SIZE)`, `linear(LAYER2_OUT_SIZE, RESULTS + 1)` (src/main.rs
lines 29-33).  The weight values themselves come from random
initialization and are unconstrained. -/
def Linear.hasShape (self : Linear) (inDim outDim : ℕ) : Prop :=
  self.weight.length = outDim ∧ (∀ r ∈ self.weight, r.length = inDim) ∧
    self.bias.length = outDim

/-- Shape invariant of any model produced by `MultiLevelPerceptron::new`. -/
def newShapes (m : MultiLevelPerceptron) : Prop :=
  m.ln1.hasShape VOTE_DIM LAYER1_OUT_SIZE ∧
    m.ln2.hasShape LAYER1_OUT_SIZE LAYER2_OUT_SIZE ∧
    m.ln3.hasShape LAYER2_OUT_SIZE (RESULTS + 1)

instance (m : MultiLevelPerceptron) : Decidable (newShapes m) := by
  unfold newShapes Linear.hasShape; infer_instance

deriving instance DecidableEq for Except

/-! ### Argmax, accuracy -/

/-- Scanning helper for argmax: current index, best index, best value.
Ties keep the earlier index (candle's CPU argmax updates only on a
strictly greater value). -/
def argmaxFrom : List ℚ → ℕ → ℕ → ℚ → ℕ
  | [], _, bi, _ => bi
  | v :: vs, i, bi, bv =>
    if bv < v then argmaxFrom vs (i + 1) i v else argmaxFrom vs (i + 1) bi bv

/-- `Tensor::argmax(D::Minus1)` on one row of logits. -/
def argmaxIdx : List ℚ → ℕ
  | [] => 0
  | v :: vs => argmaxFrom vs 1 0 v

/-- The `sum_ok` computation of the training loop (src/main.rs lines
84-89): predicted label per test row is the argmax of the logits, and the
correct predictions are counted.  The count is a small integer, exact in
f32. -/
def sum_ok (m : MultiLevelPerceptron) (votes : List (List ℚ)) (results : List ℕ) : ℕ :=
  (((m.forward votes).map argmaxIdx).zip results).countP (fun p => p.1 == p.2)

/-- The accuracy percentage as the f32 pipeline computes it:
`100. * (sum_ok / n)`, each operation rounded to binary32
(src/main.rs lines 91-92). -/
def accuracyPct (k n : ℕ) : ℚ := round32 (100 * round32 ((k : ℚ) / (n : ℚ)))

/-- The test accuracy recorded by one epoch of `train` for model state
`m`: evaluated on the full test set. -/
def epochAccuracy (ds : Dataset) (m : MultiLevelPerceptron) : ℚ :=
  accuracyPct (sum_ok m ds.test_votes ds.test_results) ds.test_results.length

/-! ### The SGD step -/

def vecSub (a b : List ℚ) : List ℚ := List.zipWith (fun x y => x - y) a b

def vecScale (c : ℚ) (v : List ℚ) : List ℚ := v.map (fun x => c * x)

def matSub (a b : List (List ℚ)) : List (List ℚ) := List.zipWith vecSub a b

def matScale (c : ℚ) (a : List (List ℚ)) : List (List ℚ) := a.map (vecScale c)

/-- One SGD update on one layer: `param -= LEARNING_RATE * grad`. -/
def Linear.sgdUpdate (self g : Linear) : Linear :=
  ⟨matSub self.weight (matScale LEARNING_RATE g.weight),
    vecSub self.bias (vecScale LEARNING_RATE g.bias)⟩

/-- The effect of `sgd.backward_step(&loss)` (src/main.rs line 79): every
parameter is updated as `param -= LEARNING_RATE * grad`.  The gradient
itself is produced by the backend's autodiff of the nll/log-softmax loss
on the training set and is kept abstract as `grad`. -/
def sgdStep (grad : MultiLevelPerceptron → MultiLevelPerceptron)
    (m : MultiLevelPerceptron) : MultiLevelPerceptron :=
  ⟨m.ln1.sgdUpdate (grad m).ln1, m.ln2.sgdUpdate (grad m).ln2,
    m.ln3.sgdUpdate (grad m).ln3⟩

/-- An epoch step that always succeeds, with parameter update `f`. -/
def okStep (f : MultiLevelPerceptron → MultiLevelPerceptron) :
    MultiLevelPerceptron → Except String MultiLevelPerceptron :=
  fun m => Except.ok (f m)

/-! ### The training loop -/

/-- The epoch loop of `train` (src/main.rs lines 70-105), with the
remaining fuel equal to the remaining loop iterations.  `step` is one
epoch's parameter update (forward pass on the training set, log-softmax,
nll loss, `sgd.backward_step`); every `?` in the loop body is a backend
operation that may fail, modelled by `step` returning an error, which
aborts the loop at once.  Returns the propagated result together with
the list of per-epoch recorded test accuracies (the successive values of
`final_accuracy`).  The loop breaks at the first epoch whose accuracy
equals exactly 100. -/
def trainGo (step : MultiLevelPerceptron → Except String MultiLevelPerceptron)
    (ds : Dataset) :
    ℕ → MultiLevelPerceptron → Except String MultiLevelPerceptron × List ℚ
  | 0, m => (Except.ok m, [])
  | fuel + 1, m =>
    match step m with
    | Except.error e => (Except.error e, [])
    | Except.ok m1 =>
      let acc := epochAccuracy ds m1
      if acc = 100 then (Except.ok m1, [acc])
      else
        let r := trainGo step ds fuel m1
        (r.1, acc :: r.2)

/-- `train` (src/main.rs lines 45-114): run the epoch loop, then return
the model if the final recorded accuracy is not below 100, otherwise the
"not trained well enough" error.  A backend error from inside the loop
propagates unchanged. -/
def train (step : MultiLevelPerceptron → Except String MultiLevelPerceptron)
    (ds : Dataset) (init : MultiLevelPerceptron) :
    Except String MultiLevelPerceptron :=
  match (trainGo step ds EPOCHS init).1 with
  | Except.error e => Except.error e
  | Except.ok m =>
    if (trainGo step ds EPOCHS init).2.getLastD 0 < 100 then
      Except.error "The model is not trained well enough."
    else Except.ok m

/-- Per-epoch recorded accuracies of one `train` attempt. -/
def trainTrace (step : MultiLevelPerceptron → Except String MultiLevelPerceptron)
    (ds : Dataset) (init : MultiLevelPerceptron) : List ℚ :=
  (trainGo step ds EPOCHS init).2

/-- The value of the `final_accuracy` variable after the loop: the last
recorded accuracy, or its initialization 0.0 if no epoch ran. -/
def finalAccuracy (step : MultiLevelPerceptron → Except String MultiLevelPerceptron)
    (ds : Dataset) (init : MultiLevelPerceptron) : ℚ :=
  (trainGo step ds EPOCHS init).2.getLastD 0

/-! ### The retry driver and the inference step -/

/-- The retry loop of `main` (src/main.rs lines 152-165), starting at
attempt index `i` with `fuel` attempts of lookahead: each attempt trains
from a fresh random initialization `inits i`; a success returns the
model, any error moves on to the next attempt. -/
def retryFrom (step : MultiLevelPerceptron → Except String MultiLevelPerceptron)
    (ds : Dataset) (inits : ℕ → MultiLevelPerceptron) :
    ℕ → ℕ → Option MultiLevelPerceptron
  | _, 0 => none
  | i, fuel + 1 =>
    match train step ds (inits i) with
    | Except.ok m => some m
    | Except.error _ => retryFrom step ds inits (i + 1) fuel

/-- The literal dataset constructed in `main` (src/main.rs lines
120-150): flat buffers reshaped to two features per row. -/
def mainDataset : Dataset :=
  { train_votes := [[15, 10], [10, 15], [5, 12], [30, 20], [16, 12], [13, 25], [6, 14], [31, 21]]
    train_results := [1, 0, 0, 1, 1, 0, 0, 1]
    test_votes := [[13, 9], [8, 14], [3, 10]]
    test_results := [1, 0, 0] }

/-- The single real-world input of the inference step. -/
def real_world_votes : List ℚ := [13, 22]

/-- The inference step (src/main.rs lines 167-178): one forward pass on
the 1-row input, argmax over the class dimension, extraction of the
scalar prediction of row 0. -/
def predictClass (m : MultiLevelPerceptron) : ℕ :=
  ((m.forward [real_world_votes]).map argmaxIdx).getD 0 0

/-! ### Concrete models used as witnesses -/

/-- A concrete parameter assignment with the shapes of
`MultiLevelPerceptron::new` that classifies all three test rows of
`mainDataset` correctly. -/
def witnessModel : MultiLevelPerceptron :=
  ⟨⟨[[1, -1], [0, 0], [0, 0], [0, 0]], [0, 0, 0, 0]⟩,
    ⟨[[1, 0, 0, 0], [0, 0, 0, 0]], [0, 0]⟩,
    ⟨[[0, 0], [1, 0]], [0, 0]⟩⟩

/-- The all-zero parameter assignment with the shapes of
`MultiLevelPerceptron::new`; it predicts class 0 everywhere and so gets
2 of the 3 test rows right. -/
def zeroModel : MultiLevelPerceptron :=
  ⟨⟨[[0, 0], [0, 0], [0, 0], [0, 0]], [0, 0, 0, 0]⟩,
    ⟨[[0, 0, 0, 0], [0, 0, 0, 0]], [0, 0]⟩,
    ⟨[[0, 0], [0, 0]], [0, 0]⟩⟩

/-- An epoch step failing on `zeroModel` with a backend-style error, and
succeeding (with unchanged parameters) elsewhere; used to exercise the
error paths. -/
def backendFailStep : MultiLevelPerceptron → Except String MultiLevelPerceptron :=
  fun m => if m = zeroModel then Except.error "shape mismatch" else Except.ok m

/-- A sequence of fresh initializations whose first attempt starts at
`zeroModel` and whose later attempts start at `witnessModel`. -/
def mixedInits : ℕ → MultiLevelPerceptron :=
  fun i => if i = 0 then zeroModel else witnessModel

/-- An epoch step that consumes one entry of the first layer's bias per
epoch and raises a backend-style error once the bias is exhausted:
starting from `zeroModel` (bias of length 4) the first four epochs
succeed and epoch 5 fails, exercising an error in the middle of an
attempt rather than at its first epoch. -/
def countingFailStep : MultiLevelPerceptron → Except String MultiLevelPerceptron :=
  fun m =>
    if m.ln1.bias = [] then Except.error "shape mismatch"
    else Except.ok ⟨⟨m.ln1.weight, m.ln1.bias.drop 1⟩, m.ln2, m.ln3⟩

/-- `zeroModel` with the first layer's bias exhausted: the parameter
state on which `countingFailStep` raises its error. -/
def emptyBiasModel : MultiLevelPerceptron :=
  ⟨⟨[[0, 0], [0, 0], [0, 0], [0, 0]], []⟩,
    ⟨[[0, 0, 0, 0], [0, 0, 0, 0]], [0, 0]⟩,
    ⟨[[0, 0], [0, 0]], [0, 0]⟩⟩

/-! ### Unfolding equations for the epoch loop -/

lemma trainGo_zero (step : MultiLevelPerceptron → Except String MultiLevelPerceptron)
    (ds : Dataset) (m : MultiLevelPerceptron) :
    trainGo step ds 0 m = (Except.ok m, []) := rfl

lemma trainGo_succ_error (step : MultiLevelPerceptron → Except String MultiLevelPerceptron)
    (ds : Dataset) (fuel : ℕ) (m : MultiLevelPerceptron) (e : String)
    (hs : step m = Except.error e) :
    trainGo step ds (fuel + 1) m = (Except.error e, []) := by
  simp [trainGo, hs]

lemma trainGo_succ_ok_stop (step : MultiLevelPerceptron → Except String MultiLevelPerceptron)
    (ds : Dataset) (fuel : ℕ) (m m1 : MultiLevelPerceptron)
    (hs : step m = Except.ok m1) (hacc : epochAccuracy ds m1 = 100) :
    trainGo step ds (fuel + 1) m = (Except.ok m1, [epochAccuracy ds m1]) := by
  simp [trainGo, hs, hacc]

lemma trainGo_succ_ok_cont (step : MultiLevelPerceptron → Except String MultiLevelPerceptron)
    (ds : Dataset) (fuel : ℕ) (m m1 : MultiLevelPerceptron)
    (hs : step m = Except.ok m1) (hacc : epochAccuracy ds m1 ≠ 100) :
    trainGo step ds (fuel + 1) m =
      ((trainGo step ds fuel m1).1,
        epochAccuracy ds m1 :: (trainGo step ds fuel m1).2) := by
  simp [trainGo, hs, hacc]

/-! ### Invariants of the epoch loop -/

lemma trainGo_trace_length (step : MultiLevelPerceptron → Except String MultiLevelPerceptron)
    (ds : Dataset) :
    ∀ (fuel : ℕ) (m : MultiLevelPerceptron), (trainGo step ds fuel m).2.length ≤ fuel := by
  intro fuel
  induction fuel with
  | zero => intro m; simp [trainGo_zero]
  | succ n ih =>
    intro m
    cases hs : step m with
    | error e => simp [trainGo_succ_error step ds n m e hs]
    | ok m1 =>
      by_cases hacc : epochAccuracy ds m1 = 100
      · simp [trainGo_succ_ok_stop step ds n m m1 hs hacc]
      · simp only [trainGo_succ_ok_cont step ds n m m1 hs hacc, List.length_cons]
        exact Nat.succ_le_succ (ih m1)

lemma trainGo_trace_100_last (step : MultiLevelPerceptron → Except String MultiLevelPerceptron)
    (ds : Dataset) :
    ∀ (fuel : ℕ) (m : MultiLevelPerceptron) (i : ℕ),
      (trainGo step ds fuel m).2[i]? = some 100 →
      i + 1 = (trainGo step ds fuel m).2.length := by
  intro fuel
  induction fuel with
  | zero => intro m i h; simp [trainGo_zero] at h
  | succ n ih =>
    intro m i h
    cases hs : step m with
    | error e => rw [trainGo_succ_error step ds n m e hs] at h ⊢; simp at h
    | ok m1 =>
      by_cases hacc : epochAccuracy ds m1 = 100
      · rw [trainGo_succ_ok_stop step ds n m m1 hs hacc] at h ⊢
        cases i with
        | zero => simp
        | succ j => simp at h
      · rw [trainGo_succ_ok_cont step ds n m m1 hs hacc] at h ⊢
        cases i with
        | zero =>
          simp only [List.getElem?_cons_zero, Option.some.injEq] at h
          exact absurd h hacc
        | succ j =>
          simp only [List.getElem?_cons_succ] at h
          simp only [List.length_cons]
          exact congrArg Nat.succ (ih m1 j h)

lemma trainGo_trace_vals (step : MultiLevelPerceptron → Except String MultiLevelPerceptron)
    (ds : Dataset) :
    ∀ (fuel : ℕ) (m : MultiLevelPerceptron) (x : ℚ),
      x ∈ (trainGo step ds fuel m).2 → ∃ p, x = epochAccuracy ds p := by
  intro fuel
  induction fuel with
  | zero => intro m x h; simp [trainGo_zero] at h
  | succ n ih =>
    intro m x h
    cases hs : step m with
    | error e => rw [trainGo_succ_error step ds n m e hs] at h; simp at h
    | ok m1 =>
      by_cases hacc : epochAccuracy ds m1 = 100
      · rw [trainGo_succ_ok_stop step ds n m m1 hs hacc] at h
        simp only [List.mem_singleton] at h
        exact ⟨m1, h⟩
      · rw [trainGo_succ_ok_cont step ds n m m1 hs hacc] at h
        rcases List.mem_cons.mp h with h | h
        · exact ⟨m1, h⟩
        · exact ih m1 x h

lemma trainGo_fst_error (step : MultiLevelPerceptron → Except String MultiLevelPerceptron)
    (ds : Dataset) :
    ∀ (fuel : ℕ) (m : MultiLevelPerceptron) (e : String),
      (trainGo step ds fuel m).1 = Except.error e →
      (trainGo step ds fuel m).2.length < fuel ∧
        ∀ x ∈ (trainGo step ds fuel m).2, x ≠ 100 := by
  intro fuel
  induction fuel with
  | zero => intro m e h; rw [trainGo_zero] at h; simp at h
  | succ n ih =>
    intro m e h
    cases hs : step m with
    | error e2 =>
      rw [trainGo_succ_error step ds n m e2 hs]
      refine ⟨by simp, ?_⟩
      intro x hx
      simp at hx
    | ok m1 =>
      by_cases hacc : epochAccuracy ds m1 = 100
      · rw [trainGo_succ_ok_stop step ds n m m1 hs hacc] at h
        simp at h
      · rw [trainGo_succ_ok_cont step ds n m m1 hs hacc] at h ⊢
        obtain ⟨h1, h2⟩ := ih m1 e h
        refine ⟨?_, ?_⟩
        · simp only [List.length_cons]
          exact Nat.succ_lt_succ h1
        · intro x hx
          rcases List.mem_cons.mp hx with rfl | hx
          · exact hacc
          · exact h2 x hx

lemma trainGo_okStep_fst (f : MultiLevelPerceptron → MultiLevelPerceptron) (ds : Dataset) :
    ∀ (fuel : ℕ) (m : MultiLevelPerceptron),
      ∃ k, (trainGo (okStep f) ds fuel m).1 = Except.ok (f^[k] m) := by
  intro fuel
  induction fuel with
  | zero => intro m; exact ⟨0, rfl⟩
  | succ n ih =>
    intro m
    have hs : okStep f m = Except.ok (f m) := rfl
    by_cases hacc : epochAccuracy ds (f m) = 100
    · refine ⟨1, ?_⟩
      rw [trainGo_succ_ok_stop (okStep f) ds n m (f m) hs hacc]
      simp [Function.iterate_one]
    · obtain ⟨k, hk⟩ := ih (f m)
      refine ⟨k + 1, ?_⟩
      rw [trainGo_succ_ok_cont (okStep f) ds n m (f m) hs hacc]
      rw [Function.iterate_succ_apply]
      exact hk

lemma trainGo_okStep_trace (f : MultiLevelPerceptron → MultiLevelPerceptron) (ds : Dataset) :
    ∀ (fuel : ℕ) (m : MultiLevelPerceptron) (i : ℕ) (x : ℚ),
      (trainGo (okStep f) ds fuel m).2[i]? = some x →
      x = epochAccuracy ds (f^[i + 1] m) := by
  intro fuel
  induction fuel with
  | zero => intro m i x h; simp [trainGo_zero] at h
  | succ n ih =>
    intro m i x h
    have hs : okStep f m = Except.ok (f m) := rfl
    by_cases hacc : epochAccuracy ds (f m) = 100
    · rw [trainGo_succ_ok_stop (okStep f) ds n m (f m) hs hacc] at h
      cases i with
      | zero =>
        simp only [List.getElem?_cons_zero, Option.some.injEq] at h
        rw [← h, Function.iterate_one]
      | succ j => simp at h
    · rw [trainGo_succ_ok_cont (okStep f) ds n m (f m) hs hacc] at h
      cases i with
      | zero =>
        simp only [List.getElem?_cons_zero, Option.some.injEq] at h
        rw [← h, Function.iterate_one]
      | succ j =>
        simp only [List.getElem?_cons_succ] at h
        rw [ih (f m) j x h, ← Function.iterate_succ_apply]

/-! ### Bounds on the recorded accuracies -/

lemma getLastD_eq_or_mem (l : List ℚ) (d : ℚ) : l.getLastD d = d ∨ l.getLastD d ∈ l := by
  induction l generalizing d with
  | nil => exact Or.inl rfl
  | cons a tl ih =>
    rw [List.getLastD_cons]
    rcases ih a with h | h
    · rw [h]; exact Or.inr (List.mem_cons_self a tl)
    · exact Or.inr (List.mem_cons_of_mem a h)

lemma sum_ok_le_length (m : MultiLevelPerceptron) (votes : List (List ℚ))
    (results : List ℕ) : sum_ok m votes results ≤ results.length := by
  refine le_trans (List.countP_le_length _) ?_
  rw [List.length_zip]
  exact min_le_right _ _

lemma accuracyPct_le_100 (k : ℕ) (hk : k ≤ 3) : accuracyPct k 3 ≤ 100 := by
  interval_cases k <;> decide

lemma epochAccuracy_main_cases (m : MultiLevelPerceptron) :
    ∃ k, k ≤ 3 ∧ epochAccuracy mainDataset m = accuracyPct k 3 := by
  refine ⟨sum_ok m mainDataset.test_votes mainDataset.test_results, ?_, rfl⟩
  exact sum_ok_le_length m _ _

lemma epochAccuracy_main_le (m : MultiLevelPerceptron) :
    epochAccuracy mainDataset m ≤ 100 := by
  obtain ⟨k, hk, h⟩ := epochAccuracy_main_cases m
  rw [h]
  exact accuracyPct_le_100 k hk

lemma finalAccuracy_main_le
    (step : MultiLevelPerceptron → Except String MultiLevelPerceptron)
    (init : MultiLevelPerceptron) : finalAccuracy step mainDataset init ≤ 100 := by
  unfold finalAccuracy
  rcases getLastD_eq_or_mem (trainGo step mainDataset EPOCHS init).2 0 with h | h
  · rw [h]; norm_num
  · obtain ⟨p, hp⟩ := trainGo_trace_vals step mainDataset EPOCHS init _ h
    rw [hp]
    exact epochAccuracy_main_le p

/-! ### Characterization of the result of `train` -/

lemma train_of_fst_ok (step : MultiLevelPerceptron → Except String MultiLevelPerceptron)
    (ds : Dataset) (init m : MultiLevelPerceptron)
    (h : (trainGo step ds EPOCHS init).1 = Except.ok m) :
    train step ds init =
      if (trainGo step ds EPOCHS init).2.getLastD 0 < 100 then
        Except.error "The model is not trained well enough."
      else Except.ok m := by
  unfold train
  rw [h]

lemma train_ok_iff_main (step : MultiLevelPerceptron → Except String MultiLevelPerceptron)
    (init m : MultiLevelPerceptron) :
    train step mainDataset init = Except.ok m ↔
      (trainGo step mainDataset EPOCHS init).1 = Except.ok m ∧
        finalAccuracy step mainDataset init = 100 := by
  constructor
  · intro h
    unfold train at h
    cases hfst : (trainGo step mainDataset EPOCHS init).1 with
    | error e =>
      rw [hfst] at h
      have h2 : (Except.error e : Except String MultiLevelPerceptron) = Except.ok m := h
      exact absurd h2 (by simp)
    | ok p =>
      rw [hfst] at h
      have h2 : (if (trainGo step mainDataset EPOCHS init).2.getLastD 0 < 100 then
          (Except.error "The model is not trained well enough." :
            Except String MultiLevelPerceptron)
        else Except.ok p) = Except.ok m := h
      by_cases hlt : (trainGo step mainDataset EPOCHS init).2.getLastD 0 < 100
      · rw [if_pos hlt] at h2; exact absurd h2 (by simp)
      · rw [if_neg hlt] at h2
        have hle := finalAccuracy_main_le step init
        have heq : finalAccuracy step mainDataset init = 100 :=
          le_antisymm hle (not_lt.mp hlt)
        exact ⟨h2, heq⟩
  · rintro ⟨hfst, hacc⟩
    rw [train_of_fst_ok step mainDataset init m hfst]
    unfold finalAccuracy at hacc
    rw [hacc]
    norm_num

lemma train_error_of_low (step : MultiLevelPerceptron → Except String MultiLevelPerceptron)
    (ds : Dataset) (init m : MultiLevelPerceptron)
    (hfst : (trainGo step ds EPOCHS init).1 = Except.ok m)
    (hlt : finalAccuracy step ds init < 100) :
    train step ds init = Except.error "The model is not trained well enough." := by
  rw [train_of_fst_ok step ds init m hfst]
  unfold finalAccuracy at hlt
  rw [if_pos hlt]

/-! ### The retry driver -/

lemma retryFrom_some (step : MultiLevelPerceptron → Except String MultiLevelPerceptron)
    (ds : Dataset) (inits : ℕ → MultiLevelPerceptron) :
    ∀ (fuel i : ℕ) (m : MultiLevelPerceptron),
      retryFrom step ds inits i fuel = some m →
      ∃ j, i ≤ j ∧ j < i + fuel ∧ train step ds (inits j) = Except.ok m ∧
        ∀ l, i ≤ l → l < j → ∃ e, train step ds (inits l) = Except.error e := by
  intro fuel
  induction fuel with
  | zero => intro i m h; simp [retryFrom] at h
  | succ n ih =>
    intro i m h
    cases ht : train step ds (inits i) with
    | ok p =>
      have : some p = some m := by rw [retryFrom, ht] at h; exact h
      refine ⟨i, le_refl i, by omega, ?_, ?_⟩
      · rw [ht]; exact congrArg Except.ok (Option.some.inj this)
      · intro l hl1 hl2; omega
    | error e =>
      have h2 : retryFrom step ds inits (i + 1) n = some m := by
        rw [retryFrom, ht] at h; exact h
      obtain ⟨j, hj1, hj2, hj3, hj4⟩ := ih (i + 1) m h2
      refine ⟨j, by omega, by omega, hj3, ?_⟩
      intro l hl1 hl2
      by_cases hli : l = i
      · exact ⟨e, hli ▸ ht⟩
      · exact hj4 l (by omega) hl2

lemma retryFrom_reaches (step : MultiLevelPerceptron → Except String MultiLevelPerceptron)
    (ds : Dataset) (inits : ℕ → MultiLevelPerceptron) :
    ∀ (j i : ℕ) (m : MultiLevelPerceptron),
      (∀ l, l < j → ∃ e, train step ds (inits (i + l)) = Except.error e) →
      train step ds (inits (i + j)) = Except.ok m →
      retryFrom step ds inits i (j + 1) = some m := by
  intro j
  induction j with
  | zero =>
    intro i m _ hok
    rw [retryFrom]
    rw [Nat.add_zero] at hok
    rw [hok]
  | succ n ih =>
    intro i m hfail hok
    obtain ⟨e, he⟩ := hfail 0 (Nat.succ_pos n)
    rw [Nat.add_zero] at he
    rw [retryFrom, he]
    refine ih (i + 1) m ?_ ?_
    · intro l hl
      have := hfail (l + 1) (by omega)
      rwa [show i + (l + 1) = i + 1 + l by omega] at this
    · rwa [show i + 1 + n = i + (n + 1) by omega]

/-! ### Shapes of the forward pass, argmax on two logits -/

lemma Linear.forward_length (l : Linear) (x : List ℚ) :
    (l.forward x).length = min l.weight.length l.bias.length := by
  simp [Linear.forward, List.length_zip]

lemma forward_batch_length (m : MultiLevelPerceptron) (xs : List (List ℚ)) :
    (m.forward xs).length = xs.length := by
  simp [MultiLevelPerceptron.forward, reluMat]

lemma forward_row_eq (m : MultiLevelPerceptron) (xs : List (List ℚ)) (row : List ℚ)
    (h : row ∈ m.forward xs) :
    ∃ r, row = m.ln3.forward r := by
  simp only [MultiLevelPerceptron.forward, reluMat, List.map_map, List.mem_map] at h
  obtain ⟨x, _, hx⟩ := h
  exact ⟨_, hx.symm⟩

lemma forward_row_length (m : MultiLevelPerceptron) (xs : List (List ℚ)) (row : List ℚ)
    (hm : m.ln3.hasShape LAYER2_OUT_SIZE (RESULTS + 1)) (h : row ∈ m.forward xs) :
    row.length = RESULTS + 1 := by
  obtain ⟨r, hr⟩ := forward_row_eq m xs row h
  obtain ⟨hw, _, hb⟩ := hm
  rw [hr, Linear.forward_length, hw, hb, min_self]

lemma argmaxIdx_pair (a b : ℚ) : argmaxIdx [a, b] = if a < b then 1 else 0 := by
  by_cases h : a < b <;> simp [argmaxIdx, argmaxFrom, h]

lemma newShapes_iterate (f : MultiLevelPerceptron → MultiLevelPerceptron)
    (hf : ∀ p, newShapes p → newShapes (f p)) (init : MultiLevelPerceptron)
    (h : newShapes init) : ∀ k, newShapes (f^[k] init) := by
  intro k
  induction k with
  | zero => simpa using h
  | succ n ih =>
    rw [Function.iterate_succ_apply']
    exact hf _ ih

/-! ### Claim theorems -/

/-- C1: `train` returns the trained model (Ok) if and only if the final
recorded test accuracy is exactly 100.0, and whenever the final recorded
accuracy is below 100.0 it fails with the error message "The model is
not trained well enough.", returning no model.  Stated for attempts in
which every backend operation succeeds (`okStep f`), on the program's
dataset. -/
theorem train_ok_iff_final_accuracy_100
    (f : MultiLevelPerceptron → MultiLevelPerceptron) (init : MultiLevelPerceptron) :
    ((∃ m, train (okStep f) mainDataset init = Except.ok m) ↔
      finalAccuracy (okStep f) mainDataset init = 100) ∧
    (finalAccuracy (okStep f) mainDataset init < 100 →
      train (okStep f) mainDataset init =
        Except.error "The model is not trained well enough.") := by
  obtain ⟨k, hk⟩ := trainGo_okStep_fst f mainDataset EPOCHS init
  refine ⟨⟨?_, ?_⟩, ?_⟩
  · rintro ⟨m, hm⟩
    exact ((train_ok_iff_main (okStep f) init m).mp hm).2
  · intro hacc
    exact ⟨f^[k] init, (train_ok_iff_main (okStep f) init _).mpr ⟨hk, hacc⟩⟩
  · intro hlt
    exact train_error_of_low (okStep f) mainDataset init _ hk hlt

/-- Witness for C1 at a concrete failing run: the all-zero model under an
identity parameter update never reaches 100% accuracy, and `train`
returns exactly the "not trained well enough" error. -/
theorem train_ok_iff_final_accuracy_100_witness :
    finalAccuracy (okStep id) mainDataset zeroModel < 100 ∧
      train (okStep id) mainDataset zeroModel =
        Except.error "The model is not trained well enough." :=
  ⟨by decide, (train_ok_iff_final_accuracy_100 id zeroModel).2 (by decide)⟩

/-- C2: the retry loop of `main` only ever returns a model produced by a
successful attempt — one whose last recorded accuracy is exactly 100 —
logging having no effect on control flow; every earlier attempt failed
with some error; and there is no attempt cap: a success at any attempt
index `j`, however large, is reached and returned after the `j` failed
attempts before it. -/
theorem retry_returns_only_full_accuracy_models
    (step : MultiLevelPerceptron → Except String MultiLevelPerceptron)
    (inits : ℕ → MultiLevelPerceptron) :
    (∀ (fuel i : ℕ) (m : MultiLevelPerceptron),
      retryFrom step mainDataset inits i fuel = some m →
      ∃ j, i ≤ j ∧ j < i + fuel ∧ train step mainDataset (inits j) = Except.ok m ∧
        finalAccuracy step mainDataset (inits j) = 100 ∧
        ∀ l, i ≤ l → l < j → ∃ e, train step mainDataset (inits l) = Except.error e) ∧
    (∀ (j : ℕ) (m : MultiLevelPerceptron),
      (∀ l, l < j → ∃ e, train step mainDataset (inits l) = Except.error e) →
      train step mainDataset (inits j) = Except.ok m →
      retryFrom step mainDataset inits 0 (j + 1) = some m) := by
  constructor
  · intro fuel i m h
    obtain ⟨j, hj1, hj2, hj3, hj4⟩ := retryFrom_some step mainDataset inits fuel i m h
    exact ⟨j, hj1, hj2, hj3, ((train_ok_iff_main step (inits j) m).mp hj3).2, hj4⟩
  · intro j m hfail hok
    refine retryFrom_reaches step mainDataset inits j 0 m ?_ ?_
    · intro l hl
      simpa using hfail l hl
    · simpa using hok

/-- Witness for C2: a driver whose first attempt already succeeds returns
that attempt's model, with recorded accuracy exactly 100. -/
theorem retry_returns_only_full_accuracy_models_witness :
    ∃ j, 0 ≤ j ∧ j < 0 + 1 ∧
      train (okStep id) mainDataset ((fun _ => witnessModel) j) =
        Except.ok witnessModel ∧
      finalAccuracy (okStep id) mainDataset ((fun _ => witnessModel) j) = 100 ∧
      ∀ l, 0 ≤ l → l < j →
        ∃ e, train (okStep id) mainDataset ((fun _ => witnessModel) l) =
          Except.error e :=
  (retry_returns_only_full_accuracy_models (okStep id) (fun _ => witnessModel)).1
    1 0 witnessModel (by decide)

/-- C3: within one attempt the epoch loop runs at most EPOCHS = 10
iterations, and the value 100 can only ever be the last recorded
accuracy: the loop breaks at the first epoch reaching exactly 100%, so no
further epoch (hence no further forward pass, loss computation or
parameter update) executes afterwards. -/
theorem epoch_loop_bounded_and_stops_at_100
    (step : MultiLevelPerceptron → Except String MultiLevelPerceptron)
    (ds : Dataset) (init : MultiLevelPerceptron) :
    (trainTrace step ds init).length ≤ EPOCHS ∧
      ∀ i, (trainTrace step ds init)[i]? = some 100 →
        i + 1 = (trainTrace step ds init).length := by
  refine ⟨trainGo_trace_length step ds EPOCHS init, ?_⟩
  intro i h
  exact trainGo_trace_100_last step ds EPOCHS init i h

/-- Witness for C3 at a concrete run that reaches 100% at epoch 1: the
trace has length 1 and position 0 holds the accuracy 100. -/
theorem epoch_loop_bounded_and_stops_at_100_witness :
    (trainTrace (okStep id) mainDataset witnessModel).length ≤ EPOCHS ∧
      0 + 1 = (trainTrace (okStep id) mainDataset witnessModel).length :=
  ⟨(epoch_loop_bounded_and_stops_at_100 (okStep id) mainDataset witnessModel).1,
    (epoch_loop_bounded_and_stops_at_100 (okStep id) mainDataset witnessModel).2
      0 (by decide)⟩

/-- C4 counterexample: the claim says the output width C is
num_classes + 1 = 3, but `MultiLevelPerceptron::new` sizes the third
layer as `linear(LAYER2_OUT_SIZE, RESULTS + 1)` with `RESULTS = 1`: a
model with exactly those shapes maps a 1-row input to logits of width 2,
not 3. -/
theorem forward_logit_width_not_three :
    newShapes witnessModel ∧
      (witnessModel.forward [[13, 22]]).map List.length = [2] ∧ (2 : ℕ) ≠ 3 :=
  ⟨by decide, by decide, by decide⟩

/-- C4 (amended): for every input batch of n rows, a model with the
shapes of `MultiLevelPerceptron::new` returns logits of shape
n × (RESULTS + 1) = n × 2: the third linear layer's output width is 2. -/
theorem forward_logit_width (m : MultiLevelPerceptron) (xs : List (List ℚ))
    (h : newShapes m) :
    (m.forward xs).length = xs.length ∧
      ∀ row ∈ m.forward xs, row.length = RESULTS + 1 := by
  refine ⟨forward_batch_length m xs, ?_⟩
  intro row hrow
  exact forward_row_length m xs row h.2.2 hrow

/-- Witness for C4 (amended) at the concrete real-world input. -/
theorem forward_logit_width_witness :
    (witnessModel.forward [[13, 22]]).length = [[(13 : ℚ), 22]].length ∧
      ∀ row ∈ witnessModel.forward [[13, 22]], row.length = RESULTS + 1 :=
  forward_logit_width witnessModel [[13, 22]] (by decide)

/-- C5: with the SGD update rule `param -= LEARNING_RATE * grad`
(`sgdStep`) as the per-epoch parameter update, the accuracy recorded at
epoch i+1 is the test accuracy of the parameters after exactly i+1
updates: each epoch performs one update and only then evaluates the test
set, so every reported accuracy is measured on the post-update
parameters. -/
theorem epoch_updates_then_evaluates
    (grad : MultiLevelPerceptron → MultiLevelPerceptron) (ds : Dataset)
    (init : MultiLevelPerceptron) (i : ℕ)
    (h : i < (trainTrace (okStep (sgdStep grad)) ds init).length) :
    (trainTrace (okStep (sgdStep grad)) ds init)[i]? =
      some (epochAccuracy ds ((sgdStep grad)^[i + 1] init)) := by
  have hx : (trainTrace (okStep (sgdStep grad)) ds init)[i]? =
      some ((trainTrace (okStep (sgdStep grad)) ds init)[i]) :=
    List.getElem?_eq_getElem h
  have hv := trainGo_okStep_trace (sgdStep grad) ds EPOCHS init i
    ((trainTrace (okStep (sgdStep grad)) ds init)[i]) hx
  rw [hx, hv]

/-- Witness for C5 at a concrete run (zero gradient, so the update leaves
the parameters' values unchanged): epoch 1 records the accuracy of the
once-updated parameters. -/
theorem epoch_updates_then_evaluates_witness :
    0 < (trainTrace (okStep (sgdStep (fun _ => zeroModel))) mainDataset
      witnessModel).length ∧
    (trainTrace (okStep (sgdStep (fun _ => zeroModel))) mainDataset
        witnessModel)[0]? =
      some (epochAccuracy mainDataset
        ((sgdStep (fun _ => zeroModel))^[0 + 1] witnessModel)) :=
  ⟨by decide,
    epoch_updates_then_evaluates (fun _ => zeroModel) mainDataset witnessModel 0
      (by decide)⟩

/-- C6: the forward pass is exactly the row-wise composition
Linear(ln1), ReLU, Linear(ln2), ReLU, Linear(ln3), and it is a pure
function of the model and the input: two calls with the same model and
the same input yield identical output. -/
theorem forward_is_composition_and_pure (m : MultiLevelPerceptron)
    (xs : List (List ℚ)) :
    m.forward xs = xs.map (fun x =>
      m.ln3.forward ((m.ln2.forward ((m.ln1.forward x).map relu)).map relu)) ∧
    ∀ m2 xs2, m2 = m → xs2 = xs → m2.forward xs2 = m.forward xs := by
  constructor
  · simp only [MultiLevelPerceptron.forward, reluMat, List.map_map]
    rfl
  · rintro m2 xs2 rfl rfl
    rfl

/-- Witness for C6 at the concrete inference input. -/
theorem forward_is_composition_and_pure_witness :
    witnessModel.forward [real_world_votes] = [real_world_votes].map (fun x =>
      witnessModel.ln3.forward
        ((witnessModel.ln2.forward ((witnessModel.ln1.forward x).map relu)).map
          relu)) ∧
    witnessModel.forward [real_world_votes] =
      witnessModel.forward [real_world_votes] :=
  ⟨(forward_is_composition_and_pure witnessModel [real_world_votes]).1,
    (forward_is_composition_and_pure witnessModel [real_world_votes]).2
      witnessModel [real_world_votes] rfl rfl⟩

/-- C7 counterexample: a backend-style failure ("shape mismatch") raised
inside an attempt does abort that attempt, but — contrary to the claim —
it IS caught by the retry loop of `main`, whose `Err(e)` arm matches
every error alike: the driver logs it and continues with the next
attempt, here returning the next attempt's model. -/
theorem retry_catches_backend_error :
    train backendFailStep mainDataset zeroModel = Except.error "shape mismatch" ∧
      retryFrom backendFailStep mainDataset mixedInits 0 2 = some witnessModel :=
  ⟨by decide, by decide⟩

/-- C7 (amended): a backend error raised at any epoch of an attempt
propagates immediately: at the failing epoch the loop returns exactly
that error with no further epoch executed or recorded, whatever the
current parameters and however many iterations remain; the error then
surfaces from `train` unchanged (the post-loop accuracy check never
runs), the attempt having recorded fewer than EPOCHS epochs, all of them
short of 100%.  But the retry loop catches every error uniformly: after
any failed attempt, backend error or accuracy shortfall alike, it
unconditionally proceeds to the next attempt. -/
theorem errors_abort_attempt_but_retry_catches
    (step : MultiLevelPerceptron → Except String MultiLevelPerceptron)
    (ds : Dataset) (init : MultiLevelPerceptron) (e : String)
    (inits : ℕ → MultiLevelPerceptron) (i fuel : ℕ) :
    (∀ (n : ℕ) (m : MultiLevelPerceptron), step m = Except.error e →
      trainGo step ds (n + 1) m = (Except.error e, [])) ∧
    ((trainGo step ds EPOCHS init).1 = Except.error e →
      train step ds init = Except.error e ∧
        (trainTrace step ds init).length < EPOCHS ∧
        ∀ x ∈ trainTrace step ds init, x ≠ 100) ∧
    ((∃ e2, train step ds (inits i) = Except.error e2) →
      retryFrom step ds inits i (fuel + 1) = retryFrom step ds inits (i + 1) fuel) := by
  refine ⟨?_, ?_, ?_⟩
  · intro n m hs
    exact trainGo_succ_error step ds n m e hs
  · intro hfst
    refine ⟨?_, ?_⟩
    · unfold train
      rw [hfst]
    · exact trainGo_fst_error step ds EPOCHS init e hfst
  · rintro ⟨e2, he2⟩
    rw [retryFrom, he2]

/-- Witness for C7 (amended) at a step that fails in the middle of an
attempt: under `countingFailStep` the attempt from `zeroModel` runs four
successful epochs and hits the backend error at epoch 5. -/
theorem errors_abort_attempt_but_retry_catches_witness :
    trainGo countingFailStep mainDataset (0 + 1) emptyBiasModel =
      (Except.error "shape mismatch", []) ∧
    (train countingFailStep mainDataset zeroModel = Except.error "shape mismatch" ∧
      (trainTrace countingFailStep mainDataset zeroModel).length < EPOCHS ∧
      ∀ x ∈ trainTrace countingFailStep mainDataset zeroModel, x ≠ 100) ∧
    retryFrom countingFailStep mainDataset mixedInits 0 (1 + 1) =
      retryFrom countingFailStep mainDataset mixedInits (0 + 1) 1 :=
  ⟨(errors_abort_attempt_but_retry_catches countingFailStep mainDataset zeroModel
      "shape mismatch" mixedInits 0 1).1 0 emptyBiasModel (by decide),
    (errors_abort_attempt_but_retry_catches countingFailStep mainDataset zeroModel
      "shape mismatch" mixedInits 0 1).2.1 (by decide),
    (errors_abort_attempt_but_retry_catches countingFailStep mainDataset zeroModel
      "shape mismatch" mixedInits 0 1).2.2 ⟨"shape mismatch", by decide⟩⟩

/-- C8: every accuracy recorded during an attempt on the program's
3-row test set is one of the four values the f32 pipeline can produce
for a correct-count in {0,1,2,3}; those values are exactly 0, ≈100/3,
≈200/3 and exactly 100 (the middle two within 1/100 of the ideal
fractions, as f32 rounding allows). -/
theorem recorded_accuracy_quantized
    (step : MultiLevelPerceptron → Except String MultiLevelPerceptron)
    (init : MultiLevelPerceptron) (x : ℚ)
    (hx : x ∈ trainTrace step mainDataset init) :
    (x = accuracyPct 0 3 ∨ x = accuracyPct 1 3 ∨ x = accuracyPct 2 3 ∨
      x = accuracyPct 3 3) ∧
      accuracyPct 0 3 = 0 ∧ accuracyPct 3 3 = 100 ∧
      100 / 3 < accuracyPct 1 3 ∧ accuracyPct 1 3 < 100 / 3 + 1 / 100 ∧
      200 / 3 < accuracyPct 2 3 ∧ accuracyPct 2 3 < 200 / 3 + 1 / 100 := by
  refine ⟨?_, by decide, by decide, by decide, by decide, by decide, by decide⟩
  obtain ⟨p, hp⟩ := trainGo_trace_vals step mainDataset EPOCHS init x hx
  obtain ⟨k, hk, hk2⟩ := epochAccuracy_main_cases p
  rw [hp, hk2]
  interval_cases k
  · exact Or.inl rfl
  · exact Or.inr (Or.inl rfl)
  · exact Or.inr (Or.inr (Or.inl rfl))
  · exact Or.inr (Or.inr (Or.inr rfl))

/-- Witness for C8 at the accuracy 100 recorded by a successful run. -/
theorem recorded_accuracy_quantized_witness :
    ((100 : ℚ) = accuracyPct 0 3 ∨ (100 : ℚ) = accuracyPct 1 3 ∨
      (100 : ℚ) = accuracyPct 2 3 ∨ (100 : ℚ) = accuracyPct 3 3) ∧
      accuracyPct 0 3 = 0 ∧ accuracyPct 3 3 = 100 ∧
      100 / 3 < accuracyPct 1 3 ∧ accuracyPct 1 3 < 100 / 3 + 1 / 100 ∧
      200 / 3 < accuracyPct 2 3 ∧ accuracyPct 2 3 < 200 / 3 + 1 / 100 :=
  recorded_accuracy_quantized (okStep id) witnessModel 100 (by decide)

/-- C9: the inference step on the input [13, 22] is one forward pass,
argmax over the class dimension, and extraction of row 0's scalar
prediction; for every model that `train` returned successfully (from an
initialization with the shapes of `MultiLevelPerceptron::new`, updated
by a shape-preserving step), the predicted class lies in {0, 1}. -/
theorem predict_is_argmax_in_01
    (f : MultiLevelPerceptron → MultiLevelPerceptron)
    (init m : MultiLevelPerceptron) (h1 : newShapes init)
    (h2 : ∀ p, newShapes p → newShapes (f p))
    (h3 : train (okStep f) mainDataset init = Except.ok m) :
    predictClass m = argmaxIdx ((m.forward [real_world_votes]).getD 0 []) ∧
      (predictClass m = 0 ∨ predictClass m = 1) := by
  obtain ⟨k, hk⟩ := trainGo_okStep_fst f mainDataset EPOCHS init
  have hfst := ((train_ok_iff_main (okStep f) init m).mp h3).1
  have hm : m = f^[k] init := Except.ok.inj (hfst.symm.trans hk)
  have hshape : newShapes m := by
    rw [hm]
    exact newShapes_iterate f h2 init h1 k
  refine ⟨rfl, ?_⟩
  have hpc : predictClass m = argmaxIdx (m.ln3.forward ((m.ln2.forward
      ((m.ln1.forward real_world_votes).map relu)).map relu)) := rfl
  have hrowlist : m.forward [real_world_votes] = [m.ln3.forward ((m.ln2.forward
      ((m.ln1.forward real_world_votes).map relu)).map relu)] := rfl
  have hmem : m.ln3.forward ((m.ln2.forward
      ((m.ln1.forward real_world_votes).map relu)).map relu) ∈
      m.forward [real_world_votes] := by
    rw [hrowlist]
    exact List.mem_singleton_self _
  have hlen : (m.ln3.forward ((m.ln2.forward
      ((m.ln1.forward real_world_votes).map relu)).map relu)).length = 2 :=
    forward_row_length m [real_world_votes] _ hshape.2.2 hmem
  obtain ⟨a, b, hab⟩ := List.length_eq_two.mp hlen
  rw [hpc, hab, argmaxIdx_pair]
  by_cases hlt : a < b
  · right; rw [if_pos hlt]
  · left; rw [if_neg hlt]

/-- Witness for C9 at a concrete successfully trained model. -/
theorem predict_is_argmax_in_01_witness :
    predictClass witnessModel =
      argmaxIdx ((witnessModel.forward [real_world_votes]).getD 0 []) ∧
      (predictClass witnessModel = 0 ∨ predictClass witnessModel = 1) :=
  predict_is_argmax_in_01 id witnessModel witnessModel (by decide)
    (fun _ h => h) (by decide)

/-- C10: the exact f32 equality test `final_accuracy == 100.0` succeeds
if and only if all 3 test rows are predicted correctly: with the correct
count k ≤ 3 the f32 value of `100 * (k / 3)` equals 100 exactly when
k = 3, and is strictly below 100 when k ≤ 2 — the exact comparison can
neither spuriously succeed nor make success unreachable by rounding. -/
theorem success_test_exact_iff_all_correct (m : MultiLevelPerceptron) :
    (epochAccuracy mainDataset m = 100 ↔
      sum_ok m mainDataset.test_votes mainDataset.test_results = 3) ∧
    ∀ k : ℕ, k ≤ 3 →
      ((accuracyPct k 3 = 100 ↔ k = 3) ∧ (k ≤ 2 → accuracyPct k 3 < 100)) := by
  have hall : ∀ k : ℕ, k ≤ 3 →
      ((accuracyPct k 3 = 100 ↔ k = 3) ∧ (k ≤ 2 → accuracyPct k 3 < 100)) := by
    intro k hk
    interval_cases k <;> exact ⟨by decide, by decide⟩
  refine ⟨?_, hall⟩
  have hk : sum_ok m mainDataset.test_votes mainDataset.test_results ≤ 3 := by
    have h := sum_ok_le_length m mainDataset.test_votes mainDataset.test_results
    simpa [mainDataset] using h
  have he : epochAccuracy mainDataset m =
      accuracyPct (sum_ok m mainDataset.test_votes mainDataset.test_results) 3 := rfl
  rw [he]
  exact (hall _ hk).1

/-- Witness for C10 at the all-correct count k = 3. -/
theorem success_test_exact_iff_all_correct_witness :
    (accuracyPct 3 3 = 100 ↔ 3 = 3) ∧ (3 ≤ 2 → accuracyPct 3 3 < 100) :=
  (success_test_exact_iff_all_correct zeroModel).2 3 (by decide)
